import Mathlib

/-!
Shallow embedding of the basketball highlight engine's core logic:
the highlight-interval possession tally (api/services/video_service.py,
`_process_video_frames`), the streaming ball-acquisition detector
(ball_aquisition/streaming_ball_aquisition_detector.py) and the enhanced
player tracker (utils/enhanced_player_tracker.py).

Coordinates and areas are modelled as rationals; Euclidean distances and
confidence scores, which the source computes with `math.sqrt`, are real
numbers.  Python's `ZeroDivisionError` is modelled by `Option`-valued
functions returning `none`.
-/

namespace HighlightEngine

/-! ### Highlight interval possession tally

Embeds the tally block of `VideoProcessingService._process_video_frames`
(api/services/video_service.py, lines 244-256).  The accumulator state is the
mutable `intervals` list together with the `highlight_possessions` nested
dictionary, modelled as a curried count function defaulting to zero. -/

structure TallyState where
  intervals : List (Nat × Nat)
  counts : (Nat × Nat) → Int → Nat

/-- One loop iteration of the tally block, for a single
`(frame_num, possession_player_id)` pair.  Mirrors:
`if intervals: current_interval = intervals[0]; start_f, end_f = current_interval;`
`if start_f <= frame_num <= end_f: if possession_player_id != -1: bump;`
`while intervals and frame_num > end_f: intervals.pop(0)`.
Note that `end_f` stays bound to the head interval's end inside the `while`
loop, so one pass with `frame_num > end_f` pops every remaining interval. -/
def tally_step (st : TallyState) (frame_num : Nat) (possession_player_id : Int) :
    TallyState :=
  match st.intervals with
  | [] => st
  | current_interval :: rest =>
    let start_f := current_interval.1
    let end_f := current_interval.2
    let counts' :=
      if start_f ≤ frame_num ∧ frame_num ≤ end_f ∧ possession_player_id ≠ -1 then
        fun iv pid =>
          if iv = current_interval ∧ pid = possession_player_id then
            st.counts iv pid + 1
          else st.counts iv pid
      else st.counts
    let intervals' := if end_f < frame_num then [] else current_interval :: rest
    { intervals := intervals', counts := counts' }

/-- Folds the tally block over a stream of `(frame_num, possession_player_id)`
pairs, starting from the freshly initialized interval list and the empty
possession dictionaries. -/
def run_tally (intervals : List (Nat × Nat)) (stream : List (Nat × Int)) :
    TallyState :=
  stream.foldl (fun st fp => tally_step st fp.1 fp.2)
    { intervals := intervals, counts := fun _ _ => 0 }

/-! ### Geometry

The bounding-box helper module (`utils` geometry helpers) is imported by the
detector but its file is not part of the analyzed sources; only its callers
are.  Its point-distance helper is therefore modelled from the spec. -/

/-- Modelled from the spec: "Geometry utilities — bounding-box
center/width/height, point distance.  Pure functions, no state" (spec §2) and
"take the minimum Euclidean distance from ball center to any anchor"
(spec §4.1).  The source file defining `measure_distance` is absent from the
analyzed sources; this is the Euclidean distance between two points. -/
noncomputable def measure_distance (p q : ℚ × ℚ) : ℝ :=
  Real.sqrt (((p.1 - q.1) ^ 2 + (p.2 - q.2) ^ 2 : ℚ) : ℝ)

/-- Python floor division `a // b` on (real-valued) coordinates. -/
def py_floordiv (a b : ℚ) : ℚ := (⌊a / b⌋ : ℤ)

/-! ### Streaming ball acquisition detector

Embeds `StreamingBallAcquisitionDetector`
(ball_aquisition/streaming_ball_aquisition_detector.py).  The constructor
constants `possession_threshold = 50`, `min_frames = 10` and
`containment_threshold = 0.7` are fixed in `__init__`. -/

structure BBox where
  x1 : ℚ
  y1 : ℚ
  x2 : ℚ
  y2 : ℚ
deriving DecidableEq

/-- An entry of `player_tracks_frame`: `player_info.get('bbox', [])` yields
either a bounding box or the empty list, modelled as `Option BBox`. -/
structure PlayerInfo where
  bbox : Option BBox
deriving DecidableEq

/-- An entry of `ball_track`: `'bbox'` may be the empty list (`none`). -/
structure BallInfo where
  bbox : Option BBox
  bbox_center : ℚ × ℚ
deriving DecidableEq

def possession_threshold : ℚ := 50

def min_frames : Nat := 10

def containment_threshold : ℚ := 7 / 10

/-- Embeds `get_key_basketball_player_assignment_points`: the fixed list of
anchor points on the player's bounding box, preceded by the boundary-crossing
points aligned with the ball center when the ball center lies strictly inside
the box's vertical/horizontal span. -/
def get_key_basketball_player_assignment_points (player_bbox : BBox)
    (ball_center : ℚ × ℚ) : List (ℚ × ℚ) :=
  let ball_center_x := ball_center.1
  let ball_center_y := ball_center.2
  let x1 := player_bbox.x1
  let y1 := player_bbox.y1
  let x2 := player_bbox.x2
  let y2 := player_bbox.y2
  let width := x2 - x1
  let height := y2 - y1
  let pts1 :=
    if y1 < ball_center_y ∧ ball_center_y < y2 then
      [(x1, ball_center_y), (x2, ball_center_y)]
    else []
  let pts2 :=
    if x1 < ball_center_x ∧ ball_center_x < x2 then
      [(ball_center_x, y1), (ball_center_x, y2)]
    else []
  pts1 ++ pts2 ++
    [(x1 + py_floordiv width 2, y1),
     (x2, y1),
     (x1, y1),
     (x2, y1 + py_floordiv height 2),
     (x1, y1 + py_floordiv height 2),
     (x1 + py_floordiv width 2, y1 + py_floordiv height 2),
     (x2, y2),
     (x1, y2),
     (x1 + py_floordiv width 2, y2),
     (x1 + py_floordiv width 2, y1 + py_floordiv height 3)]

/-- Embeds `calculate_ball_containment_ratio`.  The early return fires when
the intersection is empty; otherwise the source divides by the ball's area,
which raises `ZeroDivisionError` when that area is zero (`none` here). -/
def calculate_ball_containment_ratio (player_bbox ball_bbox : BBox) :
    Option ℚ :=
  let intersection_x1 := max player_bbox.x1 ball_bbox.x1
  let intersection_y1 := max player_bbox.y1 ball_bbox.y1
  let intersection_x2 := min player_bbox.x2 ball_bbox.x2
  let intersection_y2 := min player_bbox.y2 ball_bbox.y2
  if intersection_x2 < intersection_x1 ∨ intersection_y2 < intersection_y1 then
    some 0
  else
    let intersection_area :=
      (intersection_x2 - intersection_x1) * (intersection_y2 - intersection_y1)
    let ball_area := (ball_bbox.x2 - ball_bbox.x1) * (ball_bbox.y2 - ball_bbox.y1)
    if ball_area = 0 then none
    else some (intersection_area / ball_area)

/-- Embeds `find_minimum_distance_to_ball`: the minimum Euclidean distance
from the ball center to any key point.  The key-point list always holds at
least ten points, so the empty case is unreachable. -/
noncomputable def find_minimum_distance_to_ball (ball_center : ℚ × ℚ)
    (player_bbox : BBox) : ℝ :=
  let key_points := get_key_basketball_player_assignment_points player_bbox ball_center
  match key_points.map (fun point => measure_distance ball_center point) with
  | [] => 0
  | d :: ds => ds.foldl min d

/-- Python `max(list, key=lambda x: x[1])` starting from a first element:
keeps the current element unless a later one is strictly larger, hence
returns the first maximal element. -/
noncomputable def py_max_by_dist (x : Int × ℝ) (xs : List (Int × ℝ)) : Int × ℝ :=
  xs.foldl (fun acc q => if acc.2 < q.2 then q else acc) x

/-- Python `min(list, key=lambda x: x[1])` starting from a first element:
returns the first minimal element. -/
noncomputable def py_min_by_dist (x : Int × ℝ) (xs : List (Int × ℝ)) : Int × ℝ :=
  xs.foldl (fun acc q => if q.2 < acc.2 then q else acc) x

/-- The candidate-partition loop of `find_best_candidate_for_possession`:
walks the players in order, skipping entries with an empty bbox, and appends
each remaining player (with its minimum key-point distance) to the
high-containment list when its containment ratio exceeds the threshold, and
to the regular-distance list otherwise.  A `ZeroDivisionError` inside
`calculate_ball_containment_ratio` aborts the whole loop (`none`). -/
noncomputable def possession_scan (ball_center : ℚ × ℚ) (ball_bbox : BBox) :
    List (Int × PlayerInfo) → List (Int × ℝ) → List (Int × ℝ) →
    Option (List (Int × ℝ) × List (Int × ℝ))
  | [], high_containment_players, regular_distance_players =>
    some (high_containment_players, regular_distance_players)
  | p :: rest, high_containment_players, regular_distance_players =>
    match p.2.bbox with
    | none => possession_scan ball_center ball_bbox rest
        high_containment_players regular_distance_players
    | some player_bbox =>
      match calculate_ball_containment_ratio player_bbox ball_bbox with
      | none => none
      | some containment =>
        let min_distance := find_minimum_distance_to_ball ball_center player_bbox
        if containment_threshold < containment then
          possession_scan ball_center ball_bbox rest
            (high_containment_players ++ [(p.1, min_distance)])
            regular_distance_players
        else
          possession_scan ball_center ball_bbox rest
            high_containment_players
            (regular_distance_players ++ [(p.1, min_distance)])

/-- Embeds `find_best_candidate_for_possession`: partition the players, then
(a) if any high-containment players exist, return the one with the largest
minimum distance; (b) otherwise return the regular player with the smallest
minimum distance if that distance is below the possession threshold;
(c) otherwise `-1`.  The outer `none` is a propagated `ZeroDivisionError`. -/
noncomputable def find_best_candidate_for_possession (ball_center : ℚ × ℚ)
    (player_tracks_frame : List (Int × PlayerInfo)) (ball_bbox : BBox) :
    Option Int :=
  match possession_scan ball_center ball_bbox player_tracks_frame [] [] with
  | none => none
  | some (high_containment_players, regular_distance_players) =>
    match high_containment_players with
    | h :: hs => some (py_max_by_dist h hs).1
    | [] =>
      match regular_distance_players with
      | r :: rs =>
        let best_candidate := py_min_by_dist r rs
        if best_candidate.2 < (possession_threshold : ℝ) then
          some best_candidate.1
        else some (-1)
      | [] => some (-1)

/-- The detector's mutable state: `acquisitions_history` and
`consecutive_possession_count`.  The source dictionary is reassigned
wholesale to `{best: n}` or `{}` on every counted frame, so it is always
empty or a singleton, modelled as `Option (Int × Nat)`. -/
structure DetectorState where
  acquisitions_history : List Int
  consecutive_possession_count : Option (Int × Nat)

/-- The detector's initial state (`__init__`). -/
def initial_detector_state : DetectorState :=
  { acquisitions_history := [], consecutive_possession_count := none }

/-- The default result of `process_frame`:
`-1 if len(history) == 0 else history[-1]`. -/
def prev_result (st : DetectorState) : Int :=
  match st.acquisitions_history.getLast? with
  | some r => r
  | none => -1

/-- Python `dict.get(key, default)` on the (empty-or-singleton)
consecutive-possession dictionary. -/
def count_get (count : Option (Int × Nat)) (key : Int) (default : Nat) : Nat :=
  match count with
  | some qn => if qn.1 = key then qn.2 else default
  | none => default

/-- Embeds `StreamingBallAcquisitionDetector.process_frame`.  `ball_track`
models `ball_track.get(1, {})` (at most one entry, at the sentinel key 1);
a missing ball or empty ball bbox re-emits the previous result and leaves the
consecutive-possession counter untouched.  `none` models an uncaught
`ZeroDivisionError` escaping the method. -/
noncomputable def process_frame (st : DetectorState)
    (player_track : List (Int × PlayerInfo)) (ball_track : Option BallInfo) :
    Option (Int × DetectorState) :=
  let res₀ : Int := prev_result st
  match ball_track with
  | none =>
    some (res₀, { st with acquisitions_history := st.acquisitions_history ++ [res₀] })
  | some ball_info =>
    match ball_info.bbox with
    | none =>
      some (res₀, { st with acquisitions_history := st.acquisitions_history ++ [res₀] })
    | some ball_bbox =>
      let ball_center := ball_info.bbox_center
      match find_best_candidate_for_possession ball_center player_track ball_bbox with
      | none => none
      | some best_player_id =>
        if best_player_id ≠ -1 then
          let number_of_consecutive_frames :=
            count_get st.consecutive_possession_count best_player_id 0 + 1
          let new_count := some (best_player_id, number_of_consecutive_frames)
          let st1 := { st with consecutive_possession_count := new_count }
          let res := if min_frames ≤ number_of_consecutive_frames then best_player_id else res₀
          some (res, { st1 with acquisitions_history := st1.acquisitions_history ++ [res] })
        else
          let st1 := { st with consecutive_possession_count := none }
          some (res₀, { st1 with acquisitions_history := st1.acquisitions_history ++ [res₀] })

/-- Runs `process_frame` over a list of per-frame inputs, collecting the
returned possession ids; an escaping exception aborts the run. -/
noncomputable def run_detector (st : DetectorState) :
    List (List (Int × PlayerInfo) × Option BallInfo) →
    Option (List Int × DetectorState)
  | [] => some ([], st)
  | f :: fs =>
    match process_frame st f.1 f.2 with
    | none => none
    | some (r, st') =>
      match run_detector st' fs with
      | none => none
      | some (rs, stF) => some (r :: rs, stF)

/-! ### Enhanced player tracker

Embeds `EnhancedPlayerTracker` (utils/enhanced_player_tracker.py).  The
constructor parameters become a `Config` record; `defaultConfig` holds the
Python defaults.  Per-frame observations (`player_track`) are insertion-ordered
association lists from player id to track data. -/

structure Config where
  max_lost_frames : Nat
  confidence_threshold : ℚ
  max_reassignment_distance : ℚ
  history_length : Nat

def defaultConfig : Config :=
  { max_lost_frames := 30, confidence_threshold := 7 / 10,
    max_reassignment_distance := 150, history_length := 10 }

/-- A `track_data` entry of `player_track`; only `'bbox_center'` is read. -/
structure Obs where
  bbox_center : ℚ × ℚ
deriving DecidableEq

/-- Embeds the `TrackingState` dataclass.  `position_history` is the deque,
most recent last; `id_history` is the set of confirmed ids. -/
structure TrackingState where
  original_id : Int
  current_id : Int
  confidence : ℝ
  lost_frames : Nat
  original_lost_frames : Nat
  last_known_position : Option (ℚ × ℚ)
  position_history : List (ℚ × ℚ)
  velocity_estimate : Option (ℚ × ℚ)
  id_history : Finset Int
  is_temporary_assignment : Bool

/-- Appending to a `deque(maxlen := history_length)`: the oldest entries are
evicted once the capacity is exceeded. -/
def push_bounded (maxlen : Nat) (xs : List (ℚ × ℚ)) (x : ℚ × ℚ) :
    List (ℚ × ℚ) :=
  let ys := xs ++ [x]
  ys.drop (ys.length - maxlen)

/-- Embeds `initialize_tracking`. -/
def initialize_tracking (player_id : Int) (position : ℚ × ℚ) : TrackingState :=
  { original_id := player_id, current_id := player_id, confidence := 1,
    lost_frames := 0, original_lost_frames := 0,
    last_known_position := some position, position_history := [position],
    velocity_estimate := none, id_history := {player_id},
    is_temporary_assignment := false }

/-- Embeds `_update_position_history`. -/
def update_position_history (cfg : Config) (s : TrackingState)
    (position : ℚ × ℚ) : TrackingState :=
  { s with position_history := push_bounded cfg.history_length s.position_history position,
           last_known_position := some position }

/-- Embeds `calculate_player_confidence` on a live tracking state.  Python's
`predicted_position or last_known_position` falls back on `or` because a
coordinate tuple is always truthy; the velocity factor is only added when a
velocity estimate exists and the history holds at least two points. -/
noncomputable def calculate_player_confidence (cfg : Config) (s : TrackingState)
    (player_id : Int) (track_data : Obs)
    (predicted_position : Option (ℚ × ℚ)) : ℝ :=
  let current_pos := track_data.bbox_center
  let reference_pos := predicted_position.or s.last_known_position
  let factors1 : List ℝ :=
    match reference_pos with
    | some ref =>
      let distance : ℝ :=
        Real.sqrt (((current_pos.1 - ref.1) ^ 2 + (current_pos.2 - ref.2) ^ 2 : ℚ) : ℝ)
      let spatial_confidence := max 0 (1 - distance / (cfg.max_reassignment_distance : ℝ))
      [spatial_confidence * 0.6]
    | none => []
  let factors2 : List ℝ :=
    match s.velocity_estimate with
    | some expected_velocity =>
      if 2 ≤ s.position_history.length then
        match s.position_history.getLast? with
        | some last_pos =>
          let velocity_diff : ℝ :=
            Real.sqrt (((current_pos.1 - last_pos.1 - expected_velocity.1) ^ 2 +
              (current_pos.2 - last_pos.2 - expected_velocity.2) ^ 2 : ℚ) : ℝ)
          let velocity_confidence := max 0 (1 - velocity_diff / 100)
          factors1 ++ [velocity_confidence * 0.4]
        | none => factors1
      else factors1
    | none => factors1
  factors2.sum

/-- Embeds `predict_next_position` on a live tracking state.  The source
mutates `velocity_estimate` as a side effect, so the updated state is
returned alongside the prediction.  `range(1, min(5, len(positions)))`
walks the first up-to-four displacement vectors of the history. -/
def predict_next_position (s : TrackingState) :
    Option (ℚ × ℚ) × TrackingState :=
  if s.position_history.length < 2 then (s.last_known_position, s)
  else
    let positions := s.position_history
    let velocities :=
      (List.range' 1 (min 5 positions.length - 1)).map fun i =>
        ((positions.getD i (0, 0)).1 - (positions.getD (i - 1) (0, 0)).1,
         (positions.getD i (0, 0)).2 - (positions.getD (i - 1) (0, 0)).2)
    match velocities with
    | [] => (s.last_known_position, s)
    | v :: vs =>
      let n : ℚ := (v :: vs).length
      let avg_vx := ((v :: vs).map Prod.fst).sum / n
      let avg_vy := ((v :: vs).map Prod.snd).sum / n
      let s' := { s with velocity_estimate := some (avg_vx, avg_vy) }
      match positions.getLast? with
      | some last_pos => (some (last_pos.1 + avg_vx, last_pos.2 + avg_vy), s')
      | none => (s.last_known_position, s')

/-- Embeds `find_best_reassignment_candidate` on a live tracking state: the
best (strictly highest, first-wins) candidate whose confidence also strictly
exceeds the threshold, together with the state updated by the prediction's
velocity side effect. -/
noncomputable def find_best_reassignment_candidate (cfg : Config)
    (s : TrackingState) (player_track : List (Int × Obs)) :
    (Option Int × ℝ) × TrackingState :=
  let pr := predict_next_position s
  let predicted_position := pr.1
  let s1 := pr.2
  let best := player_track.foldl
    (fun acc p =>
      let confidence := calculate_player_confidence cfg s1 p.1 p.2 predicted_position
      if acc.2 < confidence ∧ (cfg.confidence_threshold : ℝ) < confidence then
        (some p.1, confidence)
      else acc)
    ((none : Option Int), (0 : ℝ))
  (best, s1)

/-- Status messages returned by `update_tracking`, as an enumeration of the
source's f-strings. -/
inductive Status where
  | noTrackingInitialized
  | originalReturned
  | confirmTemporaryPrompt
  | trackingTemporary
  | trackingNormally
  | reassigned
  | lostNeedUser
  | lostWaiting
deriving DecidableEq, Repr

/-- The shared tail of `update_tracking`'s lost branch (lines 215-222):
user input is requested exactly when `lost_frames` exceeds the maximum. -/
def lost_tail (cfg : Config) (st : TrackingState) :
    (Option Int × Status × Bool) × TrackingState :=
  if cfg.max_lost_frames < st.lost_frames then
    ((none, Status.lostNeedUser, true), st)
  else
    ((none, Status.lostWaiting, false), st)

/-- The loss-counter increments at the top of the lost branch
(lines 194-198). -/
def inc_lost (s : TrackingState) : TrackingState :=
  let s1 := { s with lost_frames := s.lost_frames + 1 }
  if s1.is_temporary_assignment then
    { s1 with original_lost_frames := s1.original_lost_frames + 1 }
  else
    { s1 with original_lost_frames := s1.lost_frames }

/-- The body of `update_tracking` when the current tracked player is visible
(lines 169-192), with `dCur` its track data. -/
noncomputable def update_seen (cfg : Config) (s : TrackingState) (dCur : Obs) :
    (Option Int × Status × Bool) × TrackingState :=
  let pr := predict_next_position s
  let s1 := pr.2
  let current_confidence :=
    calculate_player_confidence cfg s1 s1.current_id dCur pr.1
  let s2 := { s1 with lost_frames := 0, confidence := current_confidence }
  let s3 := update_position_history cfg s2 dCur.bbox_center
  if s3.is_temporary_assignment then
    let s4 := { s3 with original_lost_frames := s3.original_lost_frames + 1 }
    if cfg.max_lost_frames < s4.original_lost_frames then
      ((some s4.current_id, Status.confirmTemporaryPrompt, true), s4)
    else
      ((some s4.current_id, Status.trackingTemporary, false), s4)
  else
    ((some s3.current_id, Status.trackingNormally, false), s3)

/-- The body of `update_tracking` when the current tracked player is absent
(lines 194-222). -/
noncomputable def update_lost (cfg : Config) (s : TrackingState)
    (player_track : List (Int × Obs)) :
    (Option Int × Status × Bool) × TrackingState :=
  let s2 := inc_lost s
  if s2.lost_frames ≤ cfg.max_lost_frames then
    let fr := find_best_reassignment_candidate cfg s2 player_track
    let candidate_confidence := fr.1.2
    let s3 := fr.2
    match fr.1.1 with
    | some candidate_id =>
      -- `if candidate_id:` in the source: a candidate id of 0 is falsy and
      -- is treated exactly like no candidate at all.
      if candidate_id ≠ 0 then
        let s4 := { s3 with current_id := candidate_id,
                            is_temporary_assignment := decide (candidate_id ≠ s3.original_id),
                            confidence := candidate_confidence,
                            lost_frames := 0 }
        let s5 :=
          match player_track.lookup candidate_id with
          | some d => update_position_history cfg s4 d.bbox_center
          | none => s4
        ((some candidate_id, Status.reassigned, false), s5)
      else lost_tail cfg s3
    | none => lost_tail cfg s3
  else lost_tail cfg s2

/-- Embeds `update_tracking` on a live tracking state.  The source first
checks `original_id in player_track and current_id != original_id`
(snap-back), then `current_id in player_track` (seen), else the lost branch.
When `original_id` is present and equal to `current_id`, the seen branch
fires with the original's own track data — the same dictionary entry. -/
noncomputable def update_tracking (cfg : Config) (s : TrackingState)
    (player_track : List (Int × Obs)) :
    (Option Int × Status × Bool) × TrackingState :=
  match player_track.lookup s.original_id with
  | some dOrig =>
    if s.current_id ≠ s.original_id then
      let pr := predict_next_position s
      let s1 := pr.2
      let original_confidence :=
        calculate_player_confidence cfg s1 s1.original_id dOrig pr.1
      let s2 := { s1 with current_id := s1.original_id,
                          is_temporary_assignment := false,
                          lost_frames := 0, original_lost_frames := 0,
                          confidence := original_confidence }
      let s3 := update_position_history cfg s2 dOrig.bbox_center
      ((some s3.current_id, Status.originalReturned, false), s3)
    else
      update_seen cfg s dOrig
  | none =>
    match player_track.lookup s.current_id with
    | some dCur => update_seen cfg s dCur
    | none => update_lost cfg s player_track

/-- Embeds `confirm_reassignment` on a live tracking state: a no-op when the
chosen id is absent from the observations. -/
def confirm_reassignment (cfg : Config) (s : TrackingState) (player_id : Int)
    (player_track : List (Int × Obs)) : TrackingState :=
  match player_track.lookup player_id with
  | some d =>
    let s1 := { s with current_id := player_id,
                       is_temporary_assignment := decide (player_id ≠ s.original_id),
                       lost_frames := 0, original_lost_frames := 0,
                       confidence := 1 }
    update_position_history cfg s1 d.bbox_center
  | none => s

/-- Embeds `confirm_temporary_as_permanent` on a live tracking state. -/
def confirm_temporary_as_permanent (s : TrackingState) : TrackingState × Bool :=
  if s.is_temporary_assignment then
    ({ s with original_id := s.current_id, is_temporary_assignment := false,
              original_lost_frames := 0, confidence := 1,
              id_history := insert s.current_id s.id_history }, true)
  else (s, false)

/-- Embeds `deny_temporary_assignment` at the tracker level (`tracking_state`
may be `None`). -/
def deny_temporary_assignment (cfg : Config) (ts : Option TrackingState) :
    Option TrackingState × Bool :=
  match ts with
  | some s =>
    (some { s with current_id := s.original_id, is_temporary_assignment := false,
                   lost_frames := cfg.max_lost_frames + 1,
                   original_lost_frames := cfg.max_lost_frames + 1 }, true)
  | none => (none, false)

/-- Runs `update_tracking` over a list of per-frame observation sets,
collecting the returned tracked ids. -/
noncomputable def update_sequence (cfg : Config) (s : TrackingState) :
    List (List (Int × Obs)) → List (Option Int) × TrackingState
  | [] => ([], s)
  | t :: ts =>
    let r := update_tracking cfg s t
    let rest := update_sequence cfg r.2 ts
    (r.1.1 :: rest.1, rest.2)

/-! ### Concrete instances used as inputs in the theorems below -/

/-- A tracker configured with `max_lost_frames = 0` (a constructor
parameter of `EnhancedPlayerTracker`). -/
def graceConfig : Config := { defaultConfig with max_lost_frames := 0 }

/-- A tracker configured with `confidence_threshold = 0.5`. -/
def halfConfig : Config := { defaultConfig with confidence_threshold := 1 / 2 }

/-- A tracking state whose target has been lost for longer than
`graceConfig.max_lost_frames` allows. -/
def lostState : TrackingState :=
  { original_id := 1, current_id := 1, confidence := 0, lost_frames := 1,
    original_lost_frames := 1, last_known_position := some (0, 0),
    position_history := [(0, 0)], velocity_estimate := none,
    id_history := {1}, is_temporary_assignment := false }

/-- A single-player frame whose bounding box fully contains the sample
ball. -/
def samplePlayers : List (Int × PlayerInfo) := [(5, ⟨some ⟨0, 0, 10, 10⟩⟩)]

/-- A ball observation centered at (5,5) with bbox (4,4,6,6), fully inside
the sample player's box. -/
def sampleBall : Option BallInfo := some ⟨some ⟨4, 4, 6, 6⟩, (5, 5)⟩

/-- A two-player frame: player 1 fully contains the sample ball, player 2 is
far away. -/
def twoPlayers : List (Int × PlayerInfo) :=
  [(1, ⟨some ⟨0, 0, 10, 10⟩⟩), (2, ⟨some ⟨100, 100, 110, 110⟩⟩)]

/-- The detector input stream of the hysteresis counterexample: nine frames
where player 5 is the best candidate, one frame with no ball observation,
then ten more frames where player 5 is the best candidate. -/
def carryoverInputs : List (List (Int × PlayerInfo) × Option BallInfo) :=
  List.replicate 9 (samplePlayers, sampleBall) ++ [(samplePlayers, none)] ++
    List.replicate 10 (samplePlayers, sampleBall)

/-! ## Theorems -/

/-! ### Generic helper lemmas about the tracker's state-passing functions -/

/-- `predict_next_position` mutates only the `velocity_estimate` field. -/
theorem predict_next_position_sets_only_velocity (s : TrackingState) :
    ∃ v, (predict_next_position s).2 = { s with velocity_estimate := v } := by
  unfold predict_next_position
  split
  · exact ⟨s.velocity_estimate, rfl⟩
  · dsimp only
    split
    · exact ⟨s.velocity_estimate, rfl⟩
    · split <;> exact ⟨_, rfl⟩

theorem predict_lost_frames (s : TrackingState) :
    (predict_next_position s).2.lost_frames = s.lost_frames := by
  obtain ⟨v, hv⟩ := predict_next_position_sets_only_velocity s
  rw [hv]

theorem predict_current_id (s : TrackingState) :
    (predict_next_position s).2.current_id = s.current_id := by
  obtain ⟨v, hv⟩ := predict_next_position_sets_only_velocity s
  rw [hv]

theorem predict_original_id (s : TrackingState) :
    (predict_next_position s).2.original_id = s.original_id := by
  obtain ⟨v, hv⟩ := predict_next_position_sets_only_velocity s
  rw [hv]

theorem predict_is_temporary (s : TrackingState) :
    (predict_next_position s).2.is_temporary_assignment = s.is_temporary_assignment := by
  obtain ⟨v, hv⟩ := predict_next_position_sets_only_velocity s
  rw [hv]

theorem predict_original_lost_frames (s : TrackingState) :
    (predict_next_position s).2.original_lost_frames = s.original_lost_frames := by
  obtain ⟨v, hv⟩ := predict_next_position_sets_only_velocity s
  rw [hv]

/-- The state returned by `find_best_reassignment_candidate` is exactly the
state mutated by the prediction. -/
theorem find_best_reassignment_candidate_snd (cfg : Config) (s : TrackingState)
    (player_track : List (Int × Obs)) :
    (find_best_reassignment_candidate cfg s player_track).2 =
      (predict_next_position s).2 := rfl

theorem inc_lost_lost_frames (s : TrackingState) :
    (inc_lost s).lost_frames = s.lost_frames + 1 := by
  unfold inc_lost
  dsimp only
  split <;> rfl

theorem inc_lost_current_id (s : TrackingState) :
    (inc_lost s).current_id = s.current_id := by
  unfold inc_lost
  dsimp only
  split <;> rfl

theorem inc_lost_original_id (s : TrackingState) :
    (inc_lost s).original_id = s.original_id := by
  unfold inc_lost
  dsimp only
  split <;> rfl

/-- When neither the original nor the current id is observed,
`update_tracking` takes the lost branch. -/
theorem update_tracking_absent_eq (cfg : Config) (s : TrackingState)
    (player_track : List (Int × Obs))
    (hOrig : player_track.lookup s.original_id = none)
    (hCur : player_track.lookup s.current_id = none) :
    update_tracking cfg s player_track = update_lost cfg s player_track := by
  unfold update_tracking
  rw [hOrig, hCur]

theorem lost_tail_spec (cfg : Config) (st : TrackingState) :
    (lost_tail cfg st).1.1 = none ∧
    (lost_tail cfg st).1.2.2 = decide (cfg.max_lost_frames < st.lost_frames) ∧
    (lost_tail cfg st).2 = st := by
  unfold lost_tail
  split
  · next h => simp [h]
  · next h => simp [h]

/-- When the reassignment search returns no candidate, the lost branch ends
in `lost_tail` (on the prediction-mutated state if the search ran). -/
theorem update_lost_no_candidate (cfg : Config) (s : TrackingState)
    (player_track : List (Int × Obs))
    (hCand : (find_best_reassignment_candidate cfg (inc_lost s) player_track).1.1 = none) :
    update_lost cfg s player_track =
      if (inc_lost s).lost_frames ≤ cfg.max_lost_frames then
        lost_tail cfg (find_best_reassignment_candidate cfg (inc_lost s) player_track).2
      else lost_tail cfg (inc_lost s) := by
  unfold update_lost
  dsimp only
  split
  · rw [hCand]
  · rfl

/-- When the reassignment search returns the candidate id 0 within the grace
period, the source's `if candidate_id:` treats it as no candidate and the
lost branch ends in `lost_tail` on the prediction-mutated state. -/
theorem update_lost_candidate_zero (cfg : Config) (s : TrackingState)
    (player_track : List (Int × Obs))
    (hGrace : (inc_lost s).lost_frames ≤ cfg.max_lost_frames)
    (hCand : (find_best_reassignment_candidate cfg (inc_lost s) player_track).1.1 = some 0) :
    update_lost cfg s player_track =
      lost_tail cfg (find_best_reassignment_candidate cfg (inc_lost s) player_track).2 := by
  unfold update_lost
  dsimp only
  rw [if_pos hGrace, hCand]
  simp

theorem update_seen_state_fields (cfg : Config) (s : TrackingState) (d : Obs) :
    (update_seen cfg s d).2.current_id = s.current_id ∧
    (update_seen cfg s d).2.lost_frames = 0 ∧
    (update_seen cfg s d).2.original_id = s.original_id := by
  unfold update_seen update_position_history
  dsimp only
  split
  · split <;> exact ⟨predict_current_id s, rfl, predict_original_id s⟩
  · exact ⟨predict_current_id s, rfl, predict_original_id s⟩

/-- Claim C8: denying a temporary assignment on an initialized tracker
reverts `current_id` to `original_id`, clears `is_temporary_assignment` and
forces both lost counters to `max_lost_frames + 1`; a second
`deny_temporary_assignment` call produces exactly the same tracker state and
return value, so two calls in a row have the same effect as one. -/
theorem deny_temporary_assignment_idempotent (cfg : Config) (s : TrackingState) :
    deny_temporary_assignment cfg (deny_temporary_assignment cfg (some s)).1 =
      deny_temporary_assignment cfg (some s) ∧
    (deny_temporary_assignment cfg (some s)).1 =
      some { s with current_id := s.original_id, is_temporary_assignment := false,
                    lost_frames := cfg.max_lost_frames + 1,
                    original_lost_frames := cfg.max_lost_frames + 1 } :=
  ⟨rfl, rfl⟩

/-- Claim C1 (code bug): with the pre-sorted non-overlapping intervals
`[(0,2), (5,9)]` and a monotone possession stream giving player 5 possession
on every frame 0..9, the tally credits interval `(0,2)` with 3 frames, but
interval `(5,9)` with 0 frames, and the interval list is fully drained: when
`frame_num` first passes the head interval's end (frame 3), the interval-drop
loop pops every remaining interval — not just the head — because `end_f` is
never re-read, so the frames 5..9 inside the second interval are never
tallied. -/
theorem tally_drains_pending_intervals_at_first_head_expiry :
    (HighlightEngine.run_tally [(0, 2), (5, 9)]
        [(0, 5), (1, 5), (2, 5), (3, 5), (4, 5),
         (5, 5), (6, 5), (7, 5), (8, 5), (9, 5)]).counts (0, 2) 5 = 3 ∧
    (HighlightEngine.run_tally [(0, 2), (5, 9)]
        [(0, 5), (1, 5), (2, 5), (3, 5), (4, 5),
         (5, 5), (6, 5), (7, 5), (8, 5), (9, 5)]).counts (5, 9) 5 = 0 ∧
    (HighlightEngine.run_tally [(0, 2), (5, 9)]
        [(0, 5), (1, 5), (2, 5), (3, 5), (4, 5),
         (5, 5), (6, 5), (7, 5), (8, 5), (9, 5)]).intervals = [] := by
  refine ⟨?_, ?_, ?_⟩ <;> decide

/-- Claim C2 (counterexample): an initialized tracker (player 1, default
configuration) fed an observation set containing neither `current_id` nor
`original_id`, with no candidate clearing the confidence threshold (the
observation set is empty) and `lost_frames` still within `max_lost_frames`,
returns `needs_user_input = false` — not `true` as the claim states. -/
theorem lost_grace_no_prompt_cex :
    (update_tracking defaultConfig (initialize_tracking 1 (0, 0)) []).1.1 = none ∧
    (update_tracking defaultConfig (initialize_tracking 1 (0, 0)) []).1.2.2 = false ∧
    (initialize_tracking 1 (0, 0)).lost_frames + 1 ≤ defaultConfig.max_lost_frames ∧
    (find_best_reassignment_candidate defaultConfig
        (inc_lost (initialize_tracking 1 (0, 0))) []).1.1 = none :=
  ⟨rfl, rfl, by decide, rfl⟩

/-- Claim C2 (amended, proved): for every initialized tracker and every
observation set missing both `current_id` and `original_id`, if no candidate
clears `confidence_threshold` then `update_tracking` returns no tracked id,
and returns `needs_user_input = true` exactly when the incremented
`lost_frames` exceeds `max_lost_frames`; within the grace period it returns
`needs_user_input = false`. -/
theorem update_tracking_lost_prompt_iff_over_max (cfg : Config)
    (s : TrackingState) (player_track : List (Int × Obs))
    (hOrig : player_track.lookup s.original_id = none)
    (hCur : player_track.lookup s.current_id = none)
    (hCand : (find_best_reassignment_candidate cfg (inc_lost s) player_track).1.1 = none) :
    (update_tracking cfg s player_track).1.1 = none ∧
    ((update_tracking cfg s player_track).1.2.2 = true ↔
      cfg.max_lost_frames < s.lost_frames + 1) := by
  rw [update_tracking_absent_eq cfg s player_track hOrig hCur,
      update_lost_no_candidate cfg s player_track hCand]
  by_cases h : (inc_lost s).lost_frames ≤ cfg.max_lost_frames
  · rw [if_pos h]
    obtain ⟨h1, h2, _⟩ := lost_tail_spec cfg
      (find_best_reassignment_candidate cfg (inc_lost s) player_track).2
    refine ⟨h1, ?_⟩
    rw [h2, find_best_reassignment_candidate_snd, predict_lost_frames,
        inc_lost_lost_frames]
    simp
  · rw [if_neg h]
    obtain ⟨h1, h2, _⟩ := lost_tail_spec cfg (inc_lost s)
    refine ⟨h1, ?_⟩
    rw [h2, inc_lost_lost_frames]
    simp

theorem update_tracking_lost_prompt_iff_over_max_witness :
    (([] : List (Int × Obs)).lookup (initialize_tracking 1 (0, 0)).original_id = none) ∧
    ((update_tracking defaultConfig (initialize_tracking 1 (0, 0)) []).1.1 = none ∧
     ((update_tracking defaultConfig (initialize_tracking 1 (0, 0)) []).1.2.2 = true ↔
       defaultConfig.max_lost_frames < (initialize_tracking 1 (0, 0)).lost_frames + 1)) :=
  ⟨rfl, update_tracking_lost_prompt_iff_over_max defaultConfig
    (initialize_tracking 1 (0, 0)) [] rfl rfl rfl⟩

/-- Claim C4 (counterexample): an initialized tracker (player 1, default
configuration) that missed its target for one frame and then sees
`original_id` again (with `current_id` already equal to `original_id`) ends
`update_tracking` with `original_lost_frames = 1`, not `0`: the counters are
only zeroed on the snap-back branch, which requires
`current_id ≠ original_id`. -/
theorem snap_back_counters_cex :
    ((([(1, Obs.mk (0, 0))] : List (Int × Obs)).lookup
        ((update_tracking defaultConfig (initialize_tracking 1 (0, 0)) []).2).original_id).isSome
      = true) ∧
    (update_tracking defaultConfig
        ((update_tracking defaultConfig (initialize_tracking 1 (0, 0)) []).2)
        [(1, Obs.mk (0, 0))]).2.original_lost_frames = 1 :=
  ⟨rfl, rfl⟩

/-- Claim C4 (amended, proved): for every initialized tracker state and every
observation set containing `original_id`, after `update_tracking` returns,
`current_id = original_id` and `lost_frames = 0`; when additionally
`current_id ≠ original_id` held beforehand (the snap-back case),
`is_temporary_assignment` is false and `original_lost_frames` is zeroed as
well.  (When `current_id` already equals `original_id`, the seen branch runs
instead and `original_lost_frames` keeps its prior value.) -/
theorem update_tracking_original_present_snaps (cfg : Config)
    (s : TrackingState) (player_track : List (Int × Obs)) (d : Obs)
    (h : player_track.lookup s.original_id = some d) :
    (update_tracking cfg s player_track).2.current_id = s.original_id ∧
    (update_tracking cfg s player_track).2.lost_frames = 0 ∧
    (s.current_id ≠ s.original_id →
      (update_tracking cfg s player_track).2.is_temporary_assignment = false ∧
      (update_tracking cfg s player_track).2.original_lost_frames = 0) := by
  unfold update_tracking
  rw [h]
  dsimp only
  by_cases hcur : s.current_id = s.original_id
  · rw [if_neg (not_not_intro hcur)]
    obtain ⟨h1, h2, _⟩ := update_seen_state_fields cfg s d
    exact ⟨h1.trans hcur, h2, fun hne => absurd hcur hne⟩
  · rw [if_pos hcur]
    unfold update_position_history
    dsimp only
    exact ⟨predict_original_id s, rfl, fun _ => ⟨rfl, rfl⟩⟩

theorem update_tracking_original_present_snaps_witness :
    (([(1, Obs.mk (0, 0))] : List (Int × Obs)).lookup
        (initialize_tracking 1 (0, 0)).original_id = some (Obs.mk (0, 0))) ∧
    ((update_tracking defaultConfig (initialize_tracking 1 (0, 0))
        [(1, Obs.mk (0, 0))]).2.current_id = (initialize_tracking 1 (0, 0)).original_id ∧
     (update_tracking defaultConfig (initialize_tracking 1 (0, 0))
        [(1, Obs.mk (0, 0))]).2.lost_frames = 0 ∧
     ((initialize_tracking 1 (0, 0)).current_id ≠ (initialize_tracking 1 (0, 0)).original_id →
       (update_tracking defaultConfig (initialize_tracking 1 (0, 0))
          [(1, Obs.mk (0, 0))]).2.is_temporary_assignment = false ∧
       (update_tracking defaultConfig (initialize_tracking 1 (0, 0))
          [(1, Obs.mk (0, 0))]).2.original_lost_frames = 0)) :=
  ⟨rfl, update_tracking_original_present_snaps defaultConfig
    (initialize_tracking 1 (0, 0)) [(1, Obs.mk (0, 0))] (Obs.mk (0, 0)) rfl⟩

/-- Once over the loss limit with both ids absent, `update_tracking` returns
no id, requests user input, and only increments the loss counters. -/
theorem update_tracking_over_max_absent (cfg : Config) (s : TrackingState)
    (player_track : List (Int × Obs))
    (hOrig : player_track.lookup s.original_id = none)
    (hCur : player_track.lookup s.current_id = none)
    (hLost : cfg.max_lost_frames < s.lost_frames) :
    update_tracking cfg s player_track =
      ((none, Status.lostNeedUser, true), inc_lost s) := by
  rw [update_tracking_absent_eq cfg s player_track hOrig hCur]
  unfold update_lost
  dsimp only
  rw [if_neg (by rw [inc_lost_lost_frames]; omega)]
  unfold lost_tail
  rw [if_pos (by rw [inc_lost_lost_frames]; omega)]

/-- Claim C3 (counterexample): with `max_lost_frames = 0`, an initialized
tracker (player 1) that misses its target for one frame returns a `None`
tracked id with `needs_user_input = true`; but on the very next frame, if an
observation with the stale id 1 reappears, `update_tracking` returns player 1
again — the engine silently resumes tracking without any
`confirm_reassignment` or re-initialization call in between. -/
theorem untracked_silent_resume_cex :
    (update_tracking graceConfig (initialize_tracking 1 (0, 0)) []).1.1 = none ∧
    (update_tracking graceConfig (initialize_tracking 1 (0, 0)) []).1.2.2 = true ∧
    (update_tracking graceConfig
        ((update_tracking graceConfig (initialize_tracking 1 (0, 0)) []).2)
        [(1, Obs.mk (0, 0))]).1.1 = some 1 :=
  ⟨rfl, rfl, rfl⟩

/-- Claim C3 (amended, proved): once `lost_frames` exceeds `max_lost_frames`,
every subsequent `update_tracking` call returns a `None` tracked id for as
long as the observation sets contain neither `original_id` nor the retained
stale `current_id` (automatic reassignment is disabled beyond the limit).
The internal `current_id` is never cleared, however, so if the stale
`current_id` or `original_id` reappears, the engine silently resumes
tracking it (see the counterexample). -/
theorem untracked_persists_while_ids_absent (cfg : Config)
    (frames : List (List (Int × Obs))) (s : TrackingState)
    (hLost : cfg.max_lost_frames < s.lost_frames)
    (hAbs : ∀ t ∈ frames, t.lookup s.original_id = none ∧
      t.lookup s.current_id = none) :
    ∀ r ∈ (update_sequence cfg s frames).1, r = none := by
  induction frames generalizing s with
  | nil => intro r hr; simp [update_sequence] at hr
  | cons t ts ih =>
    intro r hr
    obtain ⟨hO, hC⟩ := hAbs t (List.mem_cons_self t ts)
    have hstep := update_tracking_over_max_absent cfg s t hO hC hLost
    unfold update_sequence at hr
    rw [hstep] at hr
    dsimp only at hr
    rcases List.mem_cons.mp hr with h | h
    · exact h
    · refine ih (inc_lost s) ?_ ?_ r h
      · rw [inc_lost_lost_frames]; omega
      · intro t' ht'
        obtain ⟨hO', hC'⟩ := hAbs t' (List.mem_cons_of_mem t ht')
        rw [inc_lost_original_id, inc_lost_current_id]
        exact ⟨hO', hC'⟩

theorem untracked_persists_while_ids_absent_witness :
    graceConfig.max_lost_frames < lostState.lost_frames ∧
    (∀ r ∈ (update_sequence graceConfig lostState
        [[], [(2, Obs.mk (3, 4))]]).1, r = none) :=
  ⟨by decide, untracked_persists_while_ids_absent graceConfig
    [[], [(2, Obs.mk (3, 4))]] lostState (by decide) (by decide)⟩

/-- A weighted confidence factor `max 0 (1 - dist/den) * w` lies in
`[0, w]` whenever the distance is nonnegative, the denominator positive and
the weight nonnegative. -/
theorem conf_factor_bounds (dist den w : ℝ) (hd : 0 ≤ dist) (hden : 0 < den)
    (hw : 0 ≤ w) :
    0 ≤ max 0 (1 - dist / den) * w ∧ max 0 (1 - dist / den) * w ≤ w := by
  constructor
  · exact mul_nonneg (le_max_left 0 _) hw
  · apply mul_le_of_le_one_left hw
    apply max_le (by norm_num)
    have h : 0 ≤ dist / den := div_nonneg hd hden.le
    linarith

/-- Claim C6: `calculate_player_confidence` always returns a value in
`[0, 1]` (for a positive `max_reassignment_distance`, as configured); and
when the state has no velocity estimate, or fewer than two position-history
points, the returned value is at most `0.6` — the spatial factor times its
0.6 weight, the weights not being renormalized. -/
theorem calculate_player_confidence_bounds (cfg : Config) (s : TrackingState)
    (player_id : Int) (track_data : Obs)
    (predicted_position : Option (ℚ × ℚ))
    (hmax : 0 < cfg.max_reassignment_distance) :
    0 ≤ calculate_player_confidence cfg s player_id track_data predicted_position ∧
    calculate_player_confidence cfg s player_id track_data predicted_position ≤ 1 ∧
    (s.velocity_estimate = none →
      calculate_player_confidence cfg s player_id track_data predicted_position ≤ 0.6) ∧
    (s.position_history.length < 2 →
      calculate_player_confidence cfg s player_id track_data predicted_position ≤ 0.6) := by
  have hden : (0 : ℝ) < (cfg.max_reassignment_distance : ℝ) := by exact_mod_cast hmax
  have h100 : (0 : ℝ) < 100 := by norm_num
  unfold calculate_player_confidence
  dsimp only
  rcases href : predicted_position.or s.last_known_position with _ | ref <;>
    dsimp only
  · -- no reference position: the spatial factor list is empty
    rcases hvel : s.velocity_estimate with _ | ev <;> dsimp only
    · norm_num
    · by_cases hlen : 2 ≤ s.position_history.length
      · rw [if_pos hlen]
        rcases hlast : s.position_history.getLast? with _ | lp <;> dsimp only
        · norm_num
        · obtain ⟨hv0, hv1⟩ := conf_factor_bounds
            (Real.sqrt (((track_data.bbox_center.1 - lp.1 - ev.1) ^ 2 +
              (track_data.bbox_center.2 - lp.2 - ev.2) ^ 2 : ℚ) : ℝ)) 100 0.4
            (Real.sqrt_nonneg _) h100 (by norm_num)
          simp only [List.nil_append, List.sum_cons, List.sum_nil, add_zero]
          refine ⟨hv0, by linarith, fun hno => by simp at hno, fun hlt => ?_⟩
          omega
      · rw [if_neg hlen]
        norm_num
  · -- a reference position exists: the spatial factor is present
    obtain ⟨hs0, hs1⟩ := conf_factor_bounds
      (Real.sqrt (((track_data.bbox_center.1 - ref.1) ^ 2 +
        (track_data.bbox_center.2 - ref.2) ^ 2 : ℚ) : ℝ))
      (cfg.max_reassignment_distance : ℝ) 0.6 (Real.sqrt_nonneg _) hden (by norm_num)
    rcases hvel : s.velocity_estimate with _ | ev <;> dsimp only
    · simp only [List.sum_cons, List.sum_nil, add_zero]
      exact ⟨hs0, by linarith, fun _ => hs1, fun _ => hs1⟩
    · by_cases hlen : 2 ≤ s.position_history.length
      · rw [if_pos hlen]
        rcases hlast : s.position_history.getLast? with _ | lp <;> dsimp only
        · simp only [List.sum_cons, List.sum_nil, add_zero]
          exact ⟨hs0, by linarith, fun _ => hs1, fun _ => hs1⟩
        · obtain ⟨hv0, hv1⟩ := conf_factor_bounds
            (Real.sqrt (((track_data.bbox_center.1 - lp.1 - ev.1) ^ 2 +
              (track_data.bbox_center.2 - lp.2 - ev.2) ^ 2 : ℚ) : ℝ)) 100 0.4
            (Real.sqrt_nonneg _) h100 (by norm_num)
          simp only [List.sum_append, List.sum_cons, List.sum_nil, add_zero]
          refine ⟨by linarith, by linarith, fun hno => by simp at hno, fun hlt => ?_⟩
          omega
      · rw [if_neg hlen]
        simp only [List.sum_cons, List.sum_nil, add_zero]
        exact ⟨hs0, by linarith, fun _ => hs1, fun _ => hs1⟩

theorem calculate_player_confidence_bounds_witness :
    (0 : ℚ) < defaultConfig.max_reassignment_distance ∧
    (0 ≤ calculate_player_confidence defaultConfig (initialize_tracking 1 (0, 0))
        2 (Obs.mk (3, 4)) none ∧
     calculate_player_confidence defaultConfig (initialize_tracking 1 (0, 0))
        2 (Obs.mk (3, 4)) none ≤ 1 ∧
     ((initialize_tracking 1 (0, 0)).velocity_estimate = none →
       calculate_player_confidence defaultConfig (initialize_tracking 1 (0, 0))
          2 (Obs.mk (3, 4)) none ≤ 0.6) ∧
     ((initialize_tracking 1 (0, 0)).position_history.length < 2 →
       calculate_player_confidence defaultConfig (initialize_tracking 1 (0, 0))
          2 (Obs.mk (3, 4)) none ≤ 0.6)) :=
  ⟨by decide, calculate_player_confidence_bounds defaultConfig
    (initialize_tracking 1 (0, 0)) 2 (Obs.mk (3, 4)) none (by decide)⟩

/-- Claim C10: for every player bbox and every ball bbox with strictly
positive area, `calculate_ball_containment_ratio` returns a value in
`[0, 1]`; a degenerate (zero-area) ball bbox whose point lies inside the
player bbox reaches the division with a zero divisor (the
`ZeroDivisionError` case, `none`); and `process_frame` passes such a
degenerate bbox through its emptiness guard, so the failure escapes the
whole frame step. -/
theorem containment_ratio_bounds_and_zero_area_division :
    (∀ player_bbox ball_bbox : BBox,
        0 < (ball_bbox.x2 - ball_bbox.x1) * (ball_bbox.y2 - ball_bbox.y1) →
        ∃ r, calculate_ball_containment_ratio player_bbox ball_bbox = some r ∧
          0 ≤ r ∧ r ≤ 1) ∧
    calculate_ball_containment_ratio (BBox.mk 0 0 10 10) (BBox.mk 5 5 5 5) = none ∧
    process_frame initial_detector_state
      [(7, PlayerInfo.mk (some (BBox.mk 0 0 10 10)))]
      (some (BallInfo.mk (some (BBox.mk 5 5 5 5)) (5, 5))) = none := by
  refine ⟨?_, ?_, ?_⟩
  case refine_2 => norm_num [calculate_ball_containment_ratio]
  case refine_3 =>
    norm_num [process_frame, find_best_candidate_for_possession, possession_scan,
      calculate_ball_containment_ratio, initial_detector_state, prev_result]
  intro pb bb harea
  unfold calculate_ball_containment_ratio
  dsimp only
  by_cases hempty : min pb.x2 bb.x2 < max pb.x1 bb.x1 ∨
      min pb.y2 bb.y2 < max pb.y1 bb.y1
  · rw [if_pos hempty]
    exact ⟨0, rfl, le_refl 0, by norm_num⟩
  · rw [if_neg hempty]
    push_neg at hempty
    obtain ⟨hx, hy⟩ := hempty
    have hx1 : bb.x1 ≤ bb.x2 :=
      le_trans (le_trans (le_max_right pb.x1 bb.x1) hx) (min_le_right pb.x2 bb.x2)
    have hy1 : bb.y1 ≤ bb.y2 :=
      le_trans (le_trans (le_max_right pb.y1 bb.y1) hy) (min_le_right pb.y2 bb.y2)
    have hpos : 0 < bb.x2 - bb.x1 ∧ 0 < bb.y2 - bb.y1 := by
      rcases mul_pos_iff.mp harea with ⟨h1, h2⟩ | ⟨h1, h2⟩
      · exact ⟨h1, h2⟩
      · exfalso; linarith [sub_nonneg.mpr hx1]
    have hiw0 : 0 ≤ min pb.x2 bb.x2 - max pb.x1 bb.x1 := sub_nonneg.mpr hx
    have hih0 : 0 ≤ min pb.y2 bb.y2 - max pb.y1 bb.y1 := sub_nonneg.mpr hy
    have hiwle : min pb.x2 bb.x2 - max pb.x1 bb.x1 ≤ bb.x2 - bb.x1 :=
      sub_le_sub (min_le_right _ _) (le_max_right _ _)
    have hihle : min pb.y2 bb.y2 - max pb.y1 bb.y1 ≤ bb.y2 - bb.y1 :=
      sub_le_sub (min_le_right _ _) (le_max_right _ _)
    rw [if_neg (ne_of_gt harea)]
    refine ⟨_, rfl, div_nonneg (mul_nonneg hiw0 hih0) harea.le, ?_⟩
    rw [div_le_one harea]
    exact mul_le_mul hiwle hihle hih0 (sub_nonneg.mpr hx1)

theorem containment_ratio_bounds_witness :
    0 < ((BBox.mk 4 4 6 6).x2 - (BBox.mk 4 4 6 6).x1) *
        ((BBox.mk 4 4 6 6).y2 - (BBox.mk 4 4 6 6).y1) ∧
    ∃ r, calculate_ball_containment_ratio (BBox.mk 0 0 10 10) (BBox.mk 4 4 6 6) =
        some r ∧ 0 ≤ r ∧ r ≤ 1 :=
  ⟨by norm_num, containment_ratio_bounds_and_zero_area_division.1
    (BBox.mk 0 0 10 10) (BBox.mk 4 4 6 6) (by norm_num)⟩

/-- Claim C9: automatic silent reassignment never selects the candidate id 0.
Whenever the reassignment search returns candidate id 0 (necessarily with
confidence above the threshold) while `current_id` and `original_id` are
absent and the grace period has not elapsed, `update_tracking` behaves as if
no candidate cleared the threshold: it returns no tracked id with
`needs_user_input = false`, `current_id` is unchanged and `lost_frames` is
incremented rather than reset — because the source tests the candidate with
`if candidate_id:` (truthiness) instead of `is not None`. -/
theorem update_tracking_skips_zero_id_candidate (cfg : Config)
    (s : TrackingState) (player_track : List (Int × Obs))
    (hOrig : player_track.lookup s.original_id = none)
    (hCur : player_track.lookup s.current_id = none)
    (hGrace : s.lost_frames + 1 ≤ cfg.max_lost_frames)
    (hCand : (find_best_reassignment_candidate cfg (inc_lost s) player_track).1.1 = some 0) :
    (update_tracking cfg s player_track).1.1 = none ∧
    (update_tracking cfg s player_track).1.2.2 = false ∧
    (update_tracking cfg s player_track).2.current_id = s.current_id ∧
    (update_tracking cfg s player_track).2.lost_frames = s.lost_frames + 1 := by
  have hGrace' : (inc_lost s).lost_frames ≤ cfg.max_lost_frames := by
    rw [inc_lost_lost_frames]; omega
  rw [update_tracking_absent_eq cfg s player_track hOrig hCur,
      update_lost_candidate_zero cfg s player_track hGrace' hCand]
  obtain ⟨h1, h2, h3⟩ := lost_tail_spec cfg
    (find_best_reassignment_candidate cfg (inc_lost s) player_track).2
  refine ⟨h1, ?_, ?_, ?_⟩
  · rw [h2, find_best_reassignment_candidate_snd, predict_lost_frames,
        inc_lost_lost_frames]
    simp only [decide_eq_false_iff_not]
    omega
  · rw [h3, find_best_reassignment_candidate_snd, predict_current_id,
        inc_lost_current_id]
  · rw [h3, find_best_reassignment_candidate_snd, predict_lost_frames,
        inc_lost_lost_frames]

/-- On this frame the (absent-target) tracker's confidence for the candidate
at the predicted position itself is exactly the spatial weight 0.6. -/
theorem conf_zero_candidate_eval :
    calculate_player_confidence halfConfig
      (inc_lost (initialize_tracking 1 (0, 0))) 0 (Obs.mk (0, 0))
      (some (0, 0)) = 0.6 := by
  have hv : (inc_lost (initialize_tracking 1 (0, 0))).velocity_estimate = none := rfl
  unfold calculate_player_confidence
  dsimp only
  rw [hv]
  norm_num [halfConfig, defaultConfig, Real.sqrt_zero]

/-- With the confidence threshold configured at 0.5, the stationary candidate
with id 0 clears the threshold and is returned by the reassignment search. -/
theorem find_best_zero_candidate_eval :
    (find_best_reassignment_candidate halfConfig
      (inc_lost (initialize_tracking 1 (0, 0))) [(0, Obs.mk (0, 0))]).1.1 =
      some 0 := by
  unfold find_best_reassignment_candidate
  rw [show predict_next_position (inc_lost (initialize_tracking 1 (0, 0))) =
      (some (0, 0), inc_lost (initialize_tracking 1 (0, 0))) from rfl]
  dsimp only [List.foldl]
  rw [conf_zero_candidate_eval]
  rw [if_pos (by constructor <;> norm_num [halfConfig, defaultConfig])]

theorem update_tracking_skips_zero_id_candidate_witness :
    (([(0, Obs.mk (0, 0))] : List (Int × Obs)).lookup
        (initialize_tracking 1 (0, 0)).original_id = none) ∧
    ((update_tracking halfConfig (initialize_tracking 1 (0, 0))
        [(0, Obs.mk (0, 0))]).1.1 = none ∧
     (update_tracking halfConfig (initialize_tracking 1 (0, 0))
        [(0, Obs.mk (0, 0))]).1.2.2 = false ∧
     (update_tracking halfConfig (initialize_tracking 1 (0, 0))
        [(0, Obs.mk (0, 0))]).2.current_id = (initialize_tracking 1 (0, 0)).current_id ∧
     (update_tracking halfConfig (initialize_tracking 1 (0, 0))
        [(0, Obs.mk (0, 0))]).2.lost_frames = (initialize_tracking 1 (0, 0)).lost_frames + 1) :=
  ⟨rfl, update_tracking_skips_zero_id_candidate halfConfig
    (initialize_tracking 1 (0, 0)) [(0, Obs.mk (0, 0))] rfl rfl (by decide)
    find_best_zero_candidate_eval⟩

/-- The Python-style `max(..., key=snd)` fold returns an element of the list
whose key is an upper bound of every key. -/
theorem py_max_by_dist_spec :
    ∀ (xs : List (Int × ℝ)) (a : Int × ℝ),
    py_max_by_dist a xs ∈ a :: xs ∧ a.2 ≤ (py_max_by_dist a xs).2 ∧
      ∀ q ∈ xs, q.2 ≤ (py_max_by_dist a xs).2 := by
  intro xs
  induction xs with
  | nil =>
    intro a
    refine ⟨List.mem_cons_self a [], le_refl _, ?_⟩
    intro q hq
    simp at hq
  | cons x xs ih =>
    intro a
    have hfold : py_max_by_dist a (x :: xs) =
        py_max_by_dist (if a.2 < x.2 then x else a) xs := by
      unfold py_max_by_dist
      rw [List.foldl_cons]
    obtain ⟨hmem, hge, hall⟩ := ih (if a.2 < x.2 then x else a)
    rw [hfold]
    refine ⟨?_, ?_, ?_⟩
    · rcases List.mem_cons.mp hmem with h | h
      · rw [h]
        by_cases hc : a.2 < x.2
        · rw [if_pos hc]; exact List.mem_cons_of_mem a (List.mem_cons_self x xs)
        · rw [if_neg hc]; exact List.mem_cons_self a (x :: xs)
      · exact List.mem_cons_of_mem a (List.mem_cons_of_mem x h)
    · refine le_trans ?_ hge
      by_cases hc : a.2 < x.2
      · rw [if_pos hc]; exact hc.le
      · rw [if_neg hc]
    · intro q hq
      rcases List.mem_cons.mp hq with h | h
      · rw [h]
        refine le_trans ?_ hge
        by_cases hc : a.2 < x.2
        · rw [if_pos hc]
        · rw [if_neg hc]; exact not_lt.mp hc
      · exact hall q h

/-- The Python-style `min(..., key=snd)` fold returns an element of the list
whose key is a lower bound of every key. -/
theorem py_min_by_dist_spec :
    ∀ (xs : List (Int × ℝ)) (a : Int × ℝ),
    py_min_by_dist a xs ∈ a :: xs ∧ (py_min_by_dist a xs).2 ≤ a.2 ∧
      ∀ q ∈ xs, (py_min_by_dist a xs).2 ≤ q.2 := by
  intro xs
  induction xs with
  | nil =>
    intro a
    refine ⟨List.mem_cons_self a [], le_refl _, ?_⟩
    intro q hq
    simp at hq
  | cons x xs ih =>
    intro a
    have hfold : py_min_by_dist a (x :: xs) =
        py_min_by_dist (if x.2 < a.2 then x else a) xs := by
      unfold py_min_by_dist
      rw [List.foldl_cons]
    obtain ⟨hmem, hle, hall⟩ := ih (if x.2 < a.2 then x else a)
    rw [hfold]
    refine ⟨?_, ?_, ?_⟩
    · rcases List.mem_cons.mp hmem with h | h
      · rw [h]
        by_cases hc : x.2 < a.2
        · rw [if_pos hc]; exact List.mem_cons_of_mem a (List.mem_cons_self x xs)
        · rw [if_neg hc]; exact List.mem_cons_self a (x :: xs)
      · exact List.mem_cons_of_mem a (List.mem_cons_of_mem x h)
    · refine le_trans hle ?_
      by_cases hc : x.2 < a.2
      · rw [if_pos hc]; exact hc.le
      · rw [if_neg hc]
    · intro q hq
      rcases List.mem_cons.mp hq with h | h
      · rw [h]
        refine le_trans hle ?_
        by_cases hc : x.2 < a.2
        · rw [if_pos hc]
        · rw [if_neg hc]; exact not_lt.mp hc
      · exact hall q h

/-- Every entry emitted by `possession_scan` is either inherited from the
accumulator or comes from a player of the frame, with containment strictly
above the threshold for the high-containment list and at most the threshold
for the regular list, paired with that player's minimum key-point
distance. -/
theorem possession_scan_members (ball_center : ℚ × ℚ) (ball_bbox : BBox) :
    ∀ (players : List (Int × PlayerInfo)) (h0 r0 highs regs : List (Int × ℝ)),
    possession_scan ball_center ball_bbox players h0 r0 = some (highs, regs) →
    (∀ pr ∈ highs, pr ∈ h0 ∨ ∃ info pb c, (pr.1, info) ∈ players ∧
        info.bbox = some pb ∧
        calculate_ball_containment_ratio pb ball_bbox = some c ∧
        containment_threshold < c ∧
        pr.2 = find_minimum_distance_to_ball ball_center pb) ∧
    (∀ pr ∈ regs, pr ∈ r0 ∨ ∃ info pb c, (pr.1, info) ∈ players ∧
        info.bbox = some pb ∧
        calculate_ball_containment_ratio pb ball_bbox = some c ∧
        c ≤ containment_threshold ∧
        pr.2 = find_minimum_distance_to_ball ball_center pb) := by
  intro players
  induction players with
  | nil =>
    intro h0 r0 highs regs hscan
    unfold possession_scan at hscan
    rw [Option.some_inj, Prod.mk.injEq] at hscan
    obtain ⟨h1, h2⟩ := hscan
    subst h1; subst h2
    exact ⟨fun pr hpr => Or.inl hpr, fun pr hpr => Or.inl hpr⟩
  | cons p rest ih =>
    intro h0 r0 highs regs hscan
    unfold possession_scan at hscan
    rcases hbbox : p.2.bbox with _ | pb
    all_goals rw [hbbox] at hscan
    · obtain ⟨ihh, ihr⟩ := ih h0 r0 highs regs hscan
      constructor
      · intro pr hpr
        refine (ihh pr hpr).imp_right ?_
        rintro ⟨info, pb, c, hmem, hrest⟩
        exact ⟨info, pb, c, List.mem_cons_of_mem p hmem, hrest⟩
      · intro pr hpr
        refine (ihr pr hpr).imp_right ?_
        rintro ⟨info, pb, c, hmem, hrest⟩
        exact ⟨info, pb, c, List.mem_cons_of_mem p hmem, hrest⟩
    · dsimp only at hscan
      rcases hcont : calculate_ball_containment_ratio pb ball_bbox with _ | c
      all_goals rw [hcont] at hscan
      · exact absurd hscan (by simp)
      · dsimp only at hscan
        by_cases hthr : containment_threshold < c
        · rw [if_pos hthr] at hscan
          obtain ⟨ihh, ihr⟩ := ih
            (h0 ++ [(p.1, find_minimum_distance_to_ball ball_center pb)]) r0
            highs regs hscan
          constructor
          · intro pr hpr
            rcases ihh pr hpr with hin | hex
            · rcases List.mem_append.mp hin with hin0 | hin1
              · exact Or.inl hin0
              · right
                have hpr1 : pr = (p.1, find_minimum_distance_to_ball ball_center pb) := by
                  simpa using hin1
                refine ⟨p.2, pb, c, ?_, hbbox, hcont, hthr, ?_⟩
                · rw [hpr1]
                  exact List.mem_cons_self p rest
                · rw [hpr1]
            · right
              obtain ⟨info, pb', c', hmem, hrest⟩ := hex
              exact ⟨info, pb', c', List.mem_cons_of_mem p hmem, hrest⟩
          · intro pr hpr
            refine (ihr pr hpr).imp_right ?_
            rintro ⟨info, pb', c', hmem, hrest⟩
            exact ⟨info, pb', c', List.mem_cons_of_mem p hmem, hrest⟩
        · rw [if_neg hthr] at hscan
          obtain ⟨ihh, ihr⟩ := ih h0
            (r0 ++ [(p.1, find_minimum_distance_to_ball ball_center pb)])
            highs regs hscan
          constructor
          · intro pr hpr
            refine (ihh pr hpr).imp_right ?_
            rintro ⟨info, pb', c', hmem, hrest⟩
            exact ⟨info, pb', c', List.mem_cons_of_mem p hmem, hrest⟩
          · intro pr hpr
            rcases ihr pr hpr with hin | hex
            · rcases List.mem_append.mp hin with hin0 | hin1
              · exact Or.inl hin0
              · right
                have hpr1 : pr = (p.1, find_minimum_distance_to_ball ball_center pb) := by
                  simpa using hin1
                refine ⟨p.2, pb, c, ?_, hbbox, hcont, not_lt.mp hthr, ?_⟩
                · rw [hpr1]
                  exact List.mem_cons_self p rest
                · rw [hpr1]
            · right
              obtain ⟨info, pb', c', hmem, hrest⟩ := hex
              exact ⟨info, pb', c', List.mem_cons_of_mem p hmem, hrest⟩

/-- Claim C7: whenever at least one player of the frame has containment
ratio above the 0.7 threshold (the high-containment list of the scan is
nonempty), `find_best_candidate_for_possession` returns one of the
high-containment players — the one with the largest minimum key-point
distance among them — and never a non-contained player, regardless of the
non-contained players' distances; when no high-containment player exists, it
returns the player with the smallest minimum distance if that distance is
below the possession threshold 50, and -1 otherwise (also -1 when no valid
player exists at all). -/
theorem find_best_candidate_containment_priority (ball_center : ℚ × ℚ)
    (players : List (Int × PlayerInfo)) (ball_bbox : BBox)
    (highs regs : List (Int × ℝ))
    (hscan : possession_scan ball_center ball_bbox players [] [] =
      some (highs, regs)) :
    (∀ pr ∈ highs, ∃ info pb c, (pr.1, info) ∈ players ∧
        info.bbox = some pb ∧
        calculate_ball_containment_ratio pb ball_bbox = some c ∧
        containment_threshold < c ∧
        pr.2 = find_minimum_distance_to_ball ball_center pb) ∧
    (∀ pr ∈ regs, ∃ info pb c, (pr.1, info) ∈ players ∧
        info.bbox = some pb ∧
        calculate_ball_containment_ratio pb ball_bbox = some c ∧
        c ≤ containment_threshold ∧
        pr.2 = find_minimum_distance_to_ball ball_center pb) ∧
    (∀ h hs, highs = h :: hs → ∃ pr ∈ highs,
        find_best_candidate_for_possession ball_center players ball_bbox =
          some pr.1 ∧
        ∀ q ∈ highs, q.2 ≤ pr.2) ∧
    (∀ r rs, highs = [] → regs = r :: rs → ∃ pr ∈ regs,
        (∀ q ∈ regs, pr.2 ≤ q.2) ∧
        find_best_candidate_for_possession ball_center players ball_bbox =
          some (if pr.2 < (possession_threshold : ℝ) then pr.1 else -1)) ∧
    (highs = [] → regs = [] →
        find_best_candidate_for_possession ball_center players ball_bbox =
          some (-1)) := by
  obtain ⟨hmemH, hmemR⟩ :=
    possession_scan_members ball_center ball_bbox players [] [] highs regs hscan
  refine ⟨fun pr hpr => (hmemH pr hpr).resolve_left (List.not_mem_nil pr),
    fun pr hpr => (hmemR pr hpr).resolve_left (List.not_mem_nil pr), ?_, ?_, ?_⟩
  · intro h hs hcons
    subst hcons
    obtain ⟨hmem, hge, hall⟩ := py_max_by_dist_spec hs h
    refine ⟨py_max_by_dist h hs, hmem, ?_, ?_⟩
    · unfold find_best_candidate_for_possession
      rw [hscan]
    · intro q hq
      rcases List.mem_cons.mp hq with hqh | hqt
      · rw [hqh]; exact hge
      · exact hall q hqt
  · intro r rs hhe hre
    subst hhe; subst hre
    obtain ⟨hmem, hle, hall⟩ := py_min_by_dist_spec rs r
    refine ⟨py_min_by_dist r rs, hmem, ?_, ?_⟩
    · intro q hq
      rcases List.mem_cons.mp hq with hqh | hqt
      · rw [hqh]; exact hle
      · exact hall q hqt
    · unfold find_best_candidate_for_possession
      rw [hscan]
      dsimp only
      split <;> rfl
  · intro hhe hre
    subst hhe; subst hre
    unfold find_best_candidate_for_possession
    rw [hscan]

/-- Evaluating the partition loop on the two-player frame: player 1 fully
contains the ball (ratio 1 > 0.7), player 2 does not intersect it
(ratio 0). -/
theorem possession_scan_two_players_eval :
    possession_scan (5, 5) (BBox.mk 4 4 6 6) twoPlayers [] [] =
      some ([(1, find_minimum_distance_to_ball (5, 5) (BBox.mk 0 0 10 10))],
            [(2, find_minimum_distance_to_ball (5, 5) (BBox.mk 100 100 110 110))]) := by
  norm_num [twoPlayers, possession_scan, calculate_ball_containment_ratio,
    containment_threshold]

theorem find_best_candidate_containment_priority_witness :
    (possession_scan (5, 5) (BBox.mk 4 4 6 6) twoPlayers [] [] =
      some ([(1, find_minimum_distance_to_ball (5, 5) (BBox.mk 0 0 10 10))],
            [(2, find_minimum_distance_to_ball (5, 5) (BBox.mk 100 100 110 110))])) ∧
    ((∀ pr ∈ [((1 : Int), find_minimum_distance_to_ball (5, 5) (BBox.mk 0 0 10 10))],
        ∃ info pb c, (pr.1, info) ∈ twoPlayers ∧
          info.bbox = some pb ∧
          calculate_ball_containment_ratio pb (BBox.mk 4 4 6 6) = some c ∧
          containment_threshold < c ∧
          pr.2 = find_minimum_distance_to_ball (5, 5) pb) ∧
     (∀ pr ∈ [((2 : Int), find_minimum_distance_to_ball (5, 5) (BBox.mk 100 100 110 110))],
        ∃ info pb c, (pr.1, info) ∈ twoPlayers ∧
          info.bbox = some pb ∧
          calculate_ball_containment_ratio pb (BBox.mk 4 4 6 6) = some c ∧
          c ≤ containment_threshold ∧
          pr.2 = find_minimum_distance_to_ball (5, 5) pb) ∧
     (∀ h hs, [((1 : Int), find_minimum_distance_to_ball (5, 5) (BBox.mk 0 0 10 10))] = h :: hs →
        ∃ pr ∈ [((1 : Int), find_minimum_distance_to_ball (5, 5) (BBox.mk 0 0 10 10))],
          find_best_candidate_for_possession (5, 5) twoPlayers (BBox.mk 4 4 6 6) =
            some pr.1 ∧
          ∀ q ∈ [((1 : Int), find_minimum_distance_to_ball (5, 5) (BBox.mk 0 0 10 10))],
            q.2 ≤ pr.2) ∧
     (∀ r rs, [((1 : Int), find_minimum_distance_to_ball (5, 5) (BBox.mk 0 0 10 10))] = [] →
        [((2 : Int), find_minimum_distance_to_ball (5, 5) (BBox.mk 100 100 110 110))] = r :: rs →
        ∃ pr ∈ [((2 : Int), find_minimum_distance_to_ball (5, 5) (BBox.mk 100 100 110 110))],
          (∀ q ∈ [((2 : Int), find_minimum_distance_to_ball (5, 5) (BBox.mk 100 100 110 110))],
            pr.2 ≤ q.2) ∧
          find_best_candidate_for_possession (5, 5) twoPlayers (BBox.mk 4 4 6 6) =
            some (if pr.2 < (possession_threshold : ℝ) then pr.1 else -1)) ∧
     ([((1 : Int), find_minimum_distance_to_ball (5, 5) (BBox.mk 0 0 10 10))] = [] →
      [((2 : Int), find_minimum_distance_to_ball (5, 5) (BBox.mk 100 100 110 110))] = [] →
        find_best_candidate_for_possession (5, 5) twoPlayers (BBox.mk 4 4 6 6) =
          some (-1))) :=
  ⟨possession_scan_two_players_eval,
    find_best_candidate_containment_priority (5, 5) twoPlayers (BBox.mk 4 4 6 6)
      [(1, find_minimum_distance_to_ball (5, 5) (BBox.mk 0 0 10 10))]
      [(2, find_minimum_distance_to_ball (5, 5) (BBox.mk 100 100 110 110))]
      possession_scan_two_players_eval⟩

/-! ### Hysteresis lemmas for the streaming detector -/

theorem prev_result_append (l : List Int) (r : Int) (c : Option (Int × Nat)) :
    prev_result { acquisitions_history := l ++ [r],
                  consecutive_possession_count := c } = r := by
  unfold prev_result
  rw [List.getLast?_concat]

/-- A frame with no ball observation re-emits the previous result and leaves
the consecutive-possession counter untouched. -/
theorem process_frame_no_ball (st : DetectorState)
    (player_track : List (Int × PlayerInfo)) :
    process_frame st player_track none =
      some (prev_result st,
        { acquisitions_history := st.acquisitions_history ++ [prev_result st],
          consecutive_possession_count := st.consecutive_possession_count }) := rfl

/-- A frame whose best candidate is a real player `p`: the counter is
replaced by `{p: old_count_for_p + 1}` and `p` is emitted once the counter
reaches `min_frames`. -/
theorem process_frame_best_step (st : DetectorState)
    (player_track : List (Int × PlayerInfo)) (bi : BallInfo) (bb : BBox)
    (p : Int) (hbb : bi.bbox = some bb) (hp : p ≠ -1)
    (hbest : find_best_candidate_for_possession bi.bbox_center player_track bb =
      some p) :
    process_frame st player_track (some bi) =
      some ((if min_frames ≤ count_get st.consecutive_possession_count p 0 + 1
               then p else prev_result st),
        { acquisitions_history := st.acquisitions_history ++
            [if min_frames ≤ count_get st.consecutive_possession_count p 0 + 1
               then p else prev_result st],
          consecutive_possession_count :=
            some (p, count_get st.consecutive_possession_count p 0 + 1) }) := by
  unfold process_frame
  dsimp only
  rw [hbb]
  dsimp only
  rw [hbest]
  dsimp only
  rw [if_pos hp]

/-- A frame whose best candidate is `-1`: the counter is cleared. -/
theorem process_frame_no_candidate (st : DetectorState)
    (player_track : List (Int × PlayerInfo)) (bi : BallInfo) (bb : BBox)
    (hbb : bi.bbox = some bb)
    (hbest : find_best_candidate_for_possession bi.bbox_center player_track bb =
      some (-1)) :
    process_frame st player_track (some bi) =
      some (prev_result st,
        { acquisitions_history := st.acquisitions_history ++ [prev_result st],
          consecutive_possession_count := none }) := by
  unfold process_frame
  dsimp only
  rw [hbb]
  dsimp only
  rw [hbest]
  dsimp only
  rw [if_neg (by simp)]

/-- Running the detector over a block of frames on which `p` is the per-frame
best candidate, starting from a counter of `n` for `p`: the outputs switch
from the carried previous result to `p` exactly when the counter reaches
`min_frames`. -/
theorem hysteresis_run_aux (p : Int) (hp : p ≠ -1) :
    ∀ (inputs : List (List (Int × PlayerInfo) × Option BallInfo))
      (st : DetectorState) (n : Nat),
    (st.consecutive_possession_count = some (p, n) ∨
      (n = 0 ∧ ∀ q k, st.consecutive_possession_count = some (q, k) → q ≠ p)) →
    (∀ f ∈ inputs, ∃ bi bb, f.2 = some bi ∧ bi.bbox = some bb ∧
        find_best_candidate_for_possession bi.bbox_center f.1 bb = some p) →
    ∃ outs stF, run_detector st inputs = some (outs, stF) ∧
      outs.length = inputs.length ∧
      ∀ i, i < outs.length →
        outs.getD i 0 = if min_frames ≤ n + i + 1 then p else prev_result st := by
  intro inputs
  induction inputs with
  | nil =>
    intro st n hcount hfr
    exact ⟨[], st, rfl, rfl, fun i hi => absurd hi (by simp)⟩
  | cons f fs ih =>
    intro st n hcount hfr
    obtain ⟨bi, bb, hf2, hbb, hbest⟩ := hfr f (List.mem_cons_self f fs)
    have hcnt : count_get st.consecutive_possession_count p 0 + 1 = n + 1 := by
      rcases hcount with h | ⟨hn, h⟩
      · rw [h]; unfold count_get; simp
      · subst hn
        rcases hc : st.consecutive_possession_count with _ | qn
        · simp [count_get]
        · have hne : qn.1 ≠ p := h qn.1 qn.2 (by rw [hc])
          unfold count_get
          dsimp only
          rw [if_neg hne]
    have hstep := process_frame_best_step st f.1 bi bb p hbb hp hbest
    rw [hcnt] at hstep
    obtain ⟨outs, stF, hrun, hlen, hout⟩ := ih
      { acquisitions_history := st.acquisitions_history ++
          [if min_frames ≤ n + 1 then p else prev_result st],
        consecutive_possession_count := some (p, n + 1) }
      (n + 1) (Or.inl rfl)
      (fun f' hf' => hfr f' (List.mem_cons_of_mem f hf'))
    refine ⟨(if min_frames ≤ n + 1 then p else prev_result st) :: outs, stF,
      ?_, ?_, ?_⟩
    · unfold run_detector
      rw [hf2, hstep]
      dsimp only
      rw [hrun]
    · simp [hlen]
    · intro i hi
      cases i with
      | zero =>
        simp only [List.getD_cons_zero]
      | succ j =>
        have hj : j < outs.length := by
          simp only [List.length_cons] at hi
          omega
        have hval := hout j hj
        rw [List.getD_cons_succ, hval, prev_result_append]
        rw [show n + 1 + j + 1 = n + (j + 1) + 1 from by omega]
        by_cases hA : min_frames ≤ n + (j + 1) + 1
        · rw [if_pos hA, if_pos hA]
        · rw [if_neg hA, if_neg hA, if_neg (show ¬ min_frames ≤ n + 1 by omega)]

/-- Claim C5 (amended, proved): starting from a state whose
consecutive-possession counter does not already count `p` (e.g. immediately
after a reset, or at stream start), if `p` is the per-frame best candidate on
every frame of a run of ball-present frames, the returned possession id on
the run's `i`-th frame (1-based) is the carried previous result for
`i < min_frames = 10` and becomes `p` exactly from the 10th frame on.
The counter is replaced (reset for `p`) by any ball-present frame whose best
candidate is a different player, and cleared when no candidate is found;
ball-absent frames leave the counter untouched (see the counterexample), so
the 10-frame guarantee needs the counter-fresh start above. -/
theorem possession_hysteresis_confirmation (p : Int) (hp : p ≠ -1)
    (inputs : List (List (Int × PlayerInfo) × Option BallInfo))
    (st : DetectorState)
    (hfresh : ∀ q k, st.consecutive_possession_count = some (q, k) → q ≠ p)
    (hruns : ∀ f ∈ inputs, ∃ bi bb, f.2 = some bi ∧ bi.bbox = some bb ∧
        find_best_candidate_for_possession bi.bbox_center f.1 bb = some p) :
    (∃ outs stF, run_detector st inputs = some (outs, stF) ∧
      outs.length = inputs.length ∧
      ∀ i, i < outs.length →
        outs.getD i 0 = if min_frames ≤ i + 1 then p else prev_result st) ∧
    (∀ (st' : DetectorState) (track : List (Int × PlayerInfo)) (bi : BallInfo)
        (bb : BBox) (q : Int), bi.bbox = some bb → q ≠ -1 → q ≠ p →
        find_best_candidate_for_possession bi.bbox_center track bb = some q →
        ∃ r st'', process_frame st' track (some bi) = some (r, st'') ∧
          count_get st''.consecutive_possession_count p 0 = 0) ∧
    (∀ (st' : DetectorState) (track : List (Int × PlayerInfo)) (bi : BallInfo)
        (bb : BBox), bi.bbox = some bb →
        find_best_candidate_for_possession bi.bbox_center track bb = some (-1) →
        ∃ r st'', process_frame st' track (some bi) = some (r, st'') ∧
          st''.consecutive_possession_count = none) := by
  refine ⟨?_, ?_, ?_⟩
  · obtain ⟨outs, stF, hrun, hlen, hout⟩ :=
      hysteresis_run_aux p hp inputs st 0 (Or.inr ⟨rfl, hfresh⟩) hruns
    refine ⟨outs, stF, hrun, hlen, fun i hi => ?_⟩
    have hv := hout i hi
    simpa using hv
  · intro st' track bi bb q hbb hq hqp hbest
    refine ⟨_, _, process_frame_best_step st' track bi bb q hbb hq hbest, ?_⟩
    simp [count_get, hqp]
  · intro st' track bi bb hbb hbest
    exact ⟨_, _, process_frame_no_candidate st' track bi bb hbb hbest, rfl⟩

/-- The sample single-player frame always elects player 5: the ball is fully
contained in the player's box, so the high-containment path fires. -/
theorem find_best_sample_eval :
    find_best_candidate_for_possession (5, 5) samplePlayers (BBox.mk 4 4 6 6) =
      some 5 := by
  norm_num [samplePlayers, find_best_candidate_for_possession, possession_scan,
    calculate_ball_containment_ratio, containment_threshold, py_max_by_dist]

/-- `process_frame` on the sample frame, for an arbitrary starting state. -/
theorem sample_frame_step (st : DetectorState) :
    process_frame st samplePlayers sampleBall =
      some ((if min_frames ≤ count_get st.consecutive_possession_count 5 0 + 1
               then 5 else prev_result st),
        { acquisitions_history := st.acquisitions_history ++
            [if min_frames ≤ count_get st.consecutive_possession_count 5 0 + 1
               then 5 else prev_result st],
          consecutive_possession_count :=
            some (5, count_get st.consecutive_possession_count 5 0 + 1) }) :=
  process_frame_best_step st samplePlayers
    (BallInfo.mk (some (BBox.mk 4 4 6 6)) (5, 5)) (BBox.mk 4 4 6 6) 5 rfl
    (by decide) find_best_sample_eval

/-- Claim C5 (counterexample): nine frames with player 5 as best candidate,
one frame with no ball observation, then ten more frames with player 5 as
best candidate.  The last ten frames form a run of ≥ 10 consecutive frames
on which player 5 is the per-frame best candidate, yet the emitted
possession id is already 5 on that run's *first* frame (output index 10) —
not "no earlier than the 10th frame" — because the counter built up over the
first nine frames survives the ball-absent frame instead of resetting when
no candidate is found. -/
theorem hysteresis_carryover_cex :
    find_best_candidate_for_possession (5, 5) samplePlayers (BBox.mk 4 4 6 6) =
      some 5 ∧
    (run_detector initial_detector_state carryoverInputs).map Prod.fst =
      some [-1, -1, -1, -1, -1, -1, -1, -1, -1, -1,
            5, 5, 5, 5, 5, 5, 5, 5, 5, 5] := by
  refine ⟨find_best_sample_eval, ?_⟩
  norm_num [carryoverInputs, List.replicate, run_detector, sample_frame_step,
    process_frame_no_ball, count_get, prev_result, initial_detector_state,
    min_frames]

theorem possession_hysteresis_confirmation_witness :
    ((5 : Int) ≠ -1) ∧
    (∀ q k, initial_detector_state.consecutive_possession_count = some (q, k) →
      q ≠ 5) ∧
    ((∃ outs stF, run_detector initial_detector_state
        (List.replicate 10 (samplePlayers, sampleBall)) = some (outs, stF) ∧
      outs.length = (List.replicate 10 (samplePlayers, sampleBall)).length ∧
      ∀ i, i < outs.length →
        outs.getD i 0 = if min_frames ≤ i + 1 then 5
          else prev_result initial_detector_state) ∧
     (∀ (st' : DetectorState) (track : List (Int × PlayerInfo)) (bi : BallInfo)
        (bb : BBox) (q : Int), bi.bbox = some bb → q ≠ -1 → q ≠ 5 →
        find_best_candidate_for_possession bi.bbox_center track bb = some q →
        ∃ r st'', process_frame st' track (some bi) = some (r, st'') ∧
          count_get st''.consecutive_possession_count 5 0 = 0) ∧
     (∀ (st' : DetectorState) (track : List (Int × PlayerInfo)) (bi : BallInfo)
        (bb : BBox), bi.bbox = some bb →
        find_best_candidate_for_possession bi.bbox_center track bb = some (-1) →
        ∃ r st'', process_frame st' track (some bi) = some (r, st'') ∧
          st''.consecutive_possession_count = none)) :=
  ⟨by decide, fun q k h => by simp [initial_detector_state] at h,
    possession_hysteresis_confirmation 5 (by decide)
      (List.replicate 10 (samplePlayers, sampleBall)) initial_detector_state
      (fun q k h => by simp [initial_detector_state] at h)
      (fun f hf => by
        rw [List.eq_of_mem_replicate hf]
        exact ⟨BallInfo.mk (some (BBox.mk 4 4 6 6)) (5, 5), BBox.mk 4 4 6 6,
          rfl, rfl, find_best_sample_eval⟩)⟩

end HighlightEngine
